import Mathlib

/-!
# Verification of the tasks CRUD module (Hono + Prisma boilerplate)

Shallow embedding of the repository's task module: the Prisma-backed store,
the repository layer (`tasks-repository`), the service layer (`tasks-service`),
the controller layer (`tasks-controller`), the route table (`tasks-routes`) and
the application-level error handler (`index.ts`, `app.onError`).

Modelling conventions:
* The persistent store is a list of task rows plus a fresh-id counter and a
  logical clock supplying `createdAt` timestamps (timestamps are naturals;
  their JSON rendering is a number rather than an ISO string — no claim
  inspects the rendered form).
* Store-generated ids are opaque unique strings; the generator `idOf` produces
  pairwise distinct strings.
* A JavaScript exception is a `JsError` (message + stack).  Store calls may be
  given an injected infrastructure fault (`Ctx.fault`) to model an unreachable
  database; with no fault they follow Prisma's documented behaviour
  (`update`/`delete` on a missing row raise a not-found error).
* Request bodies are `Option Json`: `none` stands for a raw body that is not
  parseable as JSON, on which `c.req.json()` throws.
* Every store call is logged in a `StoreOp` trace so that "the store was never
  touched" is directly provable.
-/

namespace TasksApp

/-- JSON values, for request and response bodies. -/
inductive Json where
  | null : Json
  | bool (b : Bool) : Json
  | num (n : Int) : Json
  | str (s : String) : Json
  | arr (xs : List Json) : Json
  | obj (fields : List (String × Json)) : Json

/-- First binding of a key in a JSON object field list. -/
def lookupField : List (String × Json) → String → Option Json
  | [], _ => none
  | (k', v) :: fs, k => if k' = k then some v else lookupField fs k

/-- Field access on a JSON value (objects only). -/
def Json.getField : Json → String → Option Json
  | .obj fs, k => lookupField fs k
  | _, _ => none

/-- A JavaScript exception value: `message` and `stack`. -/
structure JsError where
  message : String
  stack : String
deriving DecidableEq

/-- The task entity as stored by Prisma (`Task` model): opaque string id,
title, completion flag, creation timestamp. -/
structure Task where
  id : String
  title : String
  completed : Bool
  createdAt : Nat
deriving DecidableEq

/-- The persistent store: the task table plus the store's id generator state
and a logical clock providing `createdAt` values. -/
structure DB where
  tasks : List Task
  nextId : Nat
  clock : Nat
deriving DecidableEq

def emptyDB : DB := ⟨[], 0, 0⟩

/-- Store-generated opaque id for the `n`-th created row.  Any injective
generator models Prisma's unique id generation; this one is injective because
the strings have pairwise distinct lengths. -/
def idOf (n : Nat) : String := String.mk (List.replicate (n + 1) 'i')

/-- Per-request context: the `NODE_ENV` mode string and an optional injected
infrastructure fault that makes every store call throw. -/
structure Ctx where
  mode : String
  fault : Option JsError

/-- Trace entries, one per store (Prisma) call actually made. -/
inductive StoreOp where
  | findManyRows (filter : Option Bool)
  | findUniqueRow (id : String)
  | createRow
  | updateRow (id : String)
  | deleteRow (id : String)
  | countRows
deriving DecidableEq

/-- Validated create DTO (`CreateTaskSchema` output): required title,
optional completed. -/
structure CreateTaskDTO where
  title : String
  completed : Option Bool
deriving DecidableEq

/-- Validated update DTO (`UpdateTaskSchema` output): all fields optional. -/
structure UpdateTaskDTO where
  title : Option String
  completed : Option Bool
deriving DecidableEq

/-- Descending order on creation time (newest first), the order used by
`orderBy: { createdAt: 'desc' }`. -/
def createdDesc (a b : Task) : Prop := b.createdAt ≤ a.createdAt

instance : DecidableRel createdDesc := fun a b => Nat.decLe b.createdAt a.createdAt

instance : IsTotal Task createdDesc :=
  ⟨fun a b => Nat.le_total b.createdAt a.createdAt⟩

instance : IsTrans Task createdDesc :=
  ⟨fun _ _ _ h1 h2 => Nat.le_trans h2 h1⟩

/-- The row ordering applied by the store for `orderBy: { createdAt: 'desc' }`. -/
def sortByCreatedAtDesc (l : List Task) : List Task := List.insertionSort createdDesc l

/-- Prisma's not-found error for `update`/`delete` on a missing row
(error code P2025). -/
def recordNotFound : JsError := ⟨"Record to update not found.", "PrismaClientKnownRequestError"⟩

namespace PrismaTask

/-- `prisma.task.findMany` with an optional `completed` filter and
`orderBy: { createdAt: 'desc' }`. -/
def findMany (ctx : Ctx) (db : DB) (filter : Option Bool) :
    Except JsError (List Task) × DB × List StoreOp :=
  match ctx.fault with
  | some e => (.error e, db, [.findManyRows filter])
  | none =>
    (.ok (sortByCreatedAtDesc (match filter with
      | none => db.tasks
      | some b => db.tasks.filter (fun t => t.completed == b))), db, [.findManyRows filter])

/-- `prisma.task.findUnique({ where: { id } })`. -/
def findUnique (ctx : Ctx) (db : DB) (id : String) :
    Except JsError (Option Task) × DB × List StoreOp :=
  match ctx.fault with
  | some e => (.error e, db, [.findUniqueRow id])
  | none => (.ok (db.tasks.find? (fun t => t.id == id)), db, [.findUniqueRow id])

/-- `prisma.task.create({ data })`: the store generates the id and the
creation timestamp. -/
def createRow (ctx : Ctx) (db : DB) (title : String) (completed : Bool) :
    Except JsError Task × DB × List StoreOp :=
  match ctx.fault with
  | some e => (.error e, db, [.createRow])
  | none =>
    let t : Task := ⟨idOf db.nextId, title, completed, db.clock⟩
    (.ok t, ⟨db.tasks ++ [t], db.nextId + 1, db.clock + 1⟩, [.createRow])

/-- Partial update applied to a row. -/
def applyUpdate (data : UpdateTaskDTO) (t : Task) : Task :=
  { t with title := data.title.getD t.title, completed := data.completed.getD t.completed }

/-- `prisma.task.update({ where: { id }, data })`: throws `recordNotFound`
when no row has the id. -/
def updateRow (ctx : Ctx) (db : DB) (id : String) (data : UpdateTaskDTO) :
    Except JsError Task × DB × List StoreOp :=
  match ctx.fault with
  | some e => (.error e, db, [.updateRow id])
  | none =>
    match db.tasks.find? (fun t => t.id == id) with
    | none => (.error recordNotFound, db, [.updateRow id])
    | some t =>
      (.ok (applyUpdate data t),
       ⟨db.tasks.map (fun u => if u.id == id then applyUpdate data u else u), db.nextId, db.clock⟩,
       [.updateRow id])

/-- `prisma.task.delete({ where: { id } })`: throws `recordNotFound` when no
row has the id. -/
def deleteRow (ctx : Ctx) (db : DB) (id : String) :
    Except JsError Unit × DB × List StoreOp :=
  match ctx.fault with
  | some e => (.error e, db, [.deleteRow id])
  | none =>
    match db.tasks.find? (fun t => t.id == id) with
    | none => (.error recordNotFound, db, [.deleteRow id])
    | some _ =>
      (.ok (), ⟨db.tasks.filter (fun u => !(u.id == id)), db.nextId, db.clock⟩, [.deleteRow id])

/-- `prisma.task.count()`. -/
def countRows (ctx : Ctx) (db : DB) : Except JsError Nat × DB × List StoreOp :=
  match ctx.fault with
  | some e => (.error e, db, [.countRows])
  | none => (.ok db.tasks.length, db, [.countRows])

end PrismaTask

namespace TasksRepository

/-- `findAll()`: all tasks, ordered by `createdAt` descending. -/
def findAll (ctx : Ctx) (db : DB) : Except JsError (List Task) × DB × List StoreOp :=
  PrismaTask.findMany ctx db none

/-- `findById(id)`: task or `null`. -/
def findById (ctx : Ctx) (db : DB) (id : String) :
    Except JsError (Option Task) × DB × List StoreOp :=
  PrismaTask.findUnique ctx db id

/-- `create(data)`: persist a new task. -/
def create (ctx : Ctx) (db : DB) (title : String) (completed : Bool) :
    Except JsError Task × DB × List StoreOp :=
  PrismaTask.createRow ctx db title completed

/-- `update(id, data)`: the `try { ... } catch { return null }` around
`prisma.task.update` — every store error is caught and turned into `null`. -/
def update (ctx : Ctx) (db : DB) (id : String) (data : UpdateTaskDTO) :
    Except JsError (Option Task) × DB × List StoreOp :=
  match PrismaTask.updateRow ctx db id data with
  | (.ok t, db', ops) => (.ok (some t), db', ops)
  | (.error _, db', ops) => (.ok none, db', ops)

/-- `deleteById(id)`: the `try { ...; return true } catch { return false }`
around `prisma.task.delete` — every store error is caught and turned into
`false`. -/
def deleteById (ctx : Ctx) (db : DB) (id : String) :
    Except JsError Bool × DB × List StoreOp :=
  match PrismaTask.deleteRow ctx db id with
  | (.ok _, db', ops) => (.ok true, db', ops)
  | (.error _, db', ops) => (.ok false, db', ops)

/-- `count()`. -/
def count (ctx : Ctx) (db : DB) : Except JsError Nat × DB × List StoreOp :=
  PrismaTask.countRows ctx db

/-- `findByStatus(completed)`: filtered by flag, ordered like `findAll`. -/
def findByStatus (ctx : Ctx) (db : DB) (completed : Bool) :
    Except JsError (List Task) × DB × List StoreOp :=
  PrismaTask.findMany ctx db (some completed)

end TasksRepository

namespace TasksService

/-- `getAllTasks()`. -/
def getAllTasks (ctx : Ctx) (db : DB) : Except JsError (List Task) × DB × List StoreOp :=
  TasksRepository.findAll ctx db

/-- `getTaskById(id)`. -/
def getTaskById (ctx : Ctx) (db : DB) (id : String) :
    Except JsError (Option Task) × DB × List StoreOp :=
  TasksRepository.findById ctx db id

/-- `createTask(data)`: `completed` defaults to `false` when the DTO omits
it (`data.completed ?? false`). -/
def createTask (ctx : Ctx) (db : DB) (data : CreateTaskDTO) :
    Except JsError Task × DB × List StoreOp :=
  TasksRepository.create ctx db data.title (data.completed.getD false)

/-- `updateTask(id, data)`. -/
def updateTask (ctx : Ctx) (db : DB) (id : String) (data : UpdateTaskDTO) :
    Except JsError (Option Task) × DB × List StoreOp :=
  TasksRepository.update ctx db id data

/-- `deleteTask(id)`. -/
def deleteTask (ctx : Ctx) (db : DB) (id : String) :
    Except JsError Bool × DB × List StoreOp :=
  TasksRepository.deleteById ctx db id

/-- `getTasksByStatus(completed)`. -/
def getTasksByStatus (ctx : Ctx) (db : DB) (completed : Bool) :
    Except JsError (List Task) × DB × List StoreOp :=
  TasksRepository.findByStatus ctx db completed

end TasksService

/-- A single Zod validation issue: field path plus message. -/
structure Issue where
  path : List String
  message : String
deriving DecidableEq

/-- Modelled from the spec: `tasks-schema.ts` is not among the sources.  The
create schema requires a non-empty string `title` and an optional boolean
`completed`; the title check for `CreateTaskSchema`. -/
def checkCreateTitle (j : Json) : Except Issue String :=
  match j.getField "title" with
  | none => .error ⟨["title"], "Required"⟩
  | some (.str s) => if s = "" then .error ⟨["title"], "Too small"⟩ else .ok s
  | some _ => .error ⟨["title"], "Expected string"⟩

/-- Modelled from the spec: optional `title` field of `UpdateTaskSchema`
(absent is fine; when present it must be a non-empty string, matching the
entity invariant that `title` is non-empty). -/
def checkOptTitle (j : Json) : Except Issue (Option String) :=
  match j.getField "title" with
  | none => .ok none
  | some (.str s) => if s = "" then .error ⟨["title"], "Too small"⟩ else .ok (some s)
  | some _ => .error ⟨["title"], "Expected string"⟩

/-- Modelled from the spec: optional boolean `completed` field, shared by both
schemas. -/
def checkCompleted (j : Json) : Except Issue (Option Bool) :=
  match j.getField "completed" with
  | none => .ok none
  | some (.bool b) => .ok (some b)
  | some _ => .error ⟨["completed"], "Expected boolean"⟩

/-- Modelled from the spec: `CreateTaskSchema.safeParse` — validated value or
a structured issue list, never throwing; non-object input and unknown-field
stripping follow Zod's default object behaviour. -/
def CreateTaskSchema.safeParse (j : Json) : Except (List Issue) CreateTaskDTO :=
  match j with
  | .obj _ =>
    match checkCreateTitle j, checkCompleted j with
    | .ok t, .ok c => .ok ⟨t, c⟩
    | .error i, .ok _ => .error [i]
    | .ok _, .error i => .error [i]
    | .error i1, .error i2 => .error [i1, i2]
  | _ => .error [⟨[], "Expected object"⟩]

/-- Modelled from the spec: `UpdateTaskSchema.safeParse` — all fields
optional for partial update. -/
def UpdateTaskSchema.safeParse (j : Json) : Except (List Issue) UpdateTaskDTO :=
  match j with
  | .obj _ =>
    match checkOptTitle j, checkCompleted j with
    | .ok t, .ok c => .ok ⟨t, c⟩
    | .error i, .ok _ => .error [i]
    | .ok _, .error i => .error [i]
    | .error i1, .error i2 => .error [i1, i2]
  | _ => .error [⟨[], "Expected object"⟩]

/-- JSON rendering of a task, as `c.json` serializes it.  Timestamps are
modelled as naturals, so `createdAt` renders as a number. -/
def taskJson (t : Task) : Json :=
  .obj [("id", .str t.id), ("title", .str t.title),
        ("completed", .bool t.completed), ("createdAt", .num t.createdAt)]

/-- JSON rendering of a Zod issue list, as placed in `{ error: ... }` 400
bodies. -/
def issuesJson (issues : List Issue) : Json :=
  .arr (issues.map (fun i => .obj [("path", .arr (i.path.map .str)), ("message", .str i.message)]))

/-- A response body: JSON (`c.json`), plain text (`c.text`), or empty
(`c.body(null)`). -/
inductive RBody where
  | json (j : Json)
  | text (s : String)
  | empty

structure HttpResponse where
  status : Nat
  body : RBody

/-- What a handler run produces: either a response or a thrown exception,
plus the store state and the trace of store calls made. -/
inductive Outcome where
  | ok (resp : HttpResponse)
  | thrown (e : JsError)

structure HandlerResult where
  outcome : Outcome
  db : DB
  ops : List StoreOp

/-- The exception `c.req.json()` throws on a body that is not parseable as
JSON. -/
def jsonParseError : JsError := ⟨"Unexpected token in JSON", "SyntaxError"⟩

namespace TasksController

/-- `getTasks`: GET `/` — all tasks, 200. -/
def getTasks (ctx : Ctx) (db : DB) : HandlerResult :=
  match TasksService.getAllTasks ctx db with
  | (.error e, db', ops) => ⟨.thrown e, db', ops⟩
  | (.ok tasks, db', ops) => ⟨.ok ⟨200, .json (.arr (tasks.map taskJson))⟩, db', ops⟩

/-- `getTask`: GET `/:id` — 200 with the task, or 404. -/
def getTask (ctx : Ctx) (db : DB) (id : String) : HandlerResult :=
  match TasksService.getTaskById ctx db id with
  | (.error e, db', ops) => ⟨.thrown e, db', ops⟩
  | (.ok none, db', ops) => ⟨.ok ⟨404, .json (.obj [("error", .str "Task not found")])⟩, db', ops⟩
  | (.ok (some t), db', ops) => ⟨.ok ⟨200, .json (taskJson t)⟩, db', ops⟩

/-- `createTask`: POST `/` — parse the body (throws on non-JSON), validate,
400 on validation failure, else create and answer 201. -/
def createTask (ctx : Ctx) (db : DB) (body : Option Json) : HandlerResult :=
  match body with
  | none => ⟨.thrown jsonParseError, db, []⟩
  | some j =>
    match CreateTaskSchema.safeParse j with
    | .error issues => ⟨.ok ⟨400, .json (.obj [("error", issuesJson issues)])⟩, db, []⟩
    | .ok dto =>
      match TasksService.createTask ctx db dto with
      | (.error e, db', ops) => ⟨.thrown e, db', ops⟩
      | (.ok t, db', ops) => ⟨.ok ⟨201, .json (taskJson t)⟩, db', ops⟩

/-- `updateTask`: PATCH `/:id` — parse body, validate, 400 on validation
failure, 404 when the service reports no such task, else 200. -/
def updateTask (ctx : Ctx) (db : DB) (id : String) (body : Option Json) : HandlerResult :=
  match body with
  | none => ⟨.thrown jsonParseError, db, []⟩
  | some j =>
    match UpdateTaskSchema.safeParse j with
    | .error issues => ⟨.ok ⟨400, .json (.obj [("error", issuesJson issues)])⟩, db, []⟩
    | .ok dto =>
      match TasksService.updateTask ctx db id dto with
      | (.error e, db', ops) => ⟨.thrown e, db', ops⟩
      | (.ok none, db', ops) =>
        ⟨.ok ⟨404, .json (.obj [("error", .str "Task not found")])⟩, db', ops⟩
      | (.ok (some t), db', ops) => ⟨.ok ⟨200, .json (taskJson t)⟩, db', ops⟩

/-- `deleteTask`: DELETE `/:id` — 204 empty on success, 404 otherwise. -/
def deleteTask (ctx : Ctx) (db : DB) (id : String) : HandlerResult :=
  match TasksService.deleteTask ctx db id with
  | (.error e, db', ops) => ⟨.thrown e, db', ops⟩
  | (.ok false, db', ops) =>
    ⟨.ok ⟨404, .json (.obj [("error", .str "Task not found")])⟩, db', ops⟩
  | (.ok true, db', ops) => ⟨.ok ⟨204, .empty⟩, db', ops⟩

end TasksController

inductive Method where
  | get | post | patch | delete
deriving DecidableEq, BEq

/-- An inbound HTTP request, relative to the mounted tasks router: the path is
already split into segments (so `/stats` is `["stats"]` and `/` is `[]`), and
the body is `none` when the raw body is not parseable as JSON. -/
structure Request where
  method : Method
  path : List String
  body : Option Json

/-- A segment of a route pattern: literal or `:name` parameter. -/
inductive Seg where
  | lit (s : String)
  | param (name : String)

/-- A registered route: method, pattern, handler.  The handler receives the
bound path parameters and the request body. -/
structure Route where
  method : Method
  pattern : List Seg
  handler : Ctx → DB → List (String × String) → Option Json → HandlerResult

/-- Match a route pattern against path segments, returning parameter
bindings. -/
def matchPattern : List Seg → List String → Option (List (String × String))
  | [], [] => some []
  | .lit s :: ps, x :: xs => if s = x then matchPattern ps xs else none
  | .param n :: ps, x :: xs => (matchPattern ps xs).map (fun bs => (n, x) :: bs)
  | _, _ => none

/-- The tasks router (`tasks-routes.ts`), in registration order:
`GET /`, `GET /:id`, `POST /`, `PATCH /:id`, `DELETE /:id`.
No other route — in particular no `GET /stats` — is registered. -/
def tasksRouter : List Route :=
  [⟨.get, [], fun ctx db _ _ => TasksController.getTasks ctx db⟩,
   ⟨.get, [.param "id"], fun ctx db ps _ =>
     TasksController.getTask ctx db (((ps.lookup "id").getD ""))⟩,
   ⟨.post, [], fun ctx db _ body => TasksController.createTask ctx db body⟩,
   ⟨.patch, [.param "id"], fun ctx db ps body =>
     TasksController.updateTask ctx db (((ps.lookup "id").getD "")) body⟩,
   ⟨.delete, [.param "id"], fun ctx db ps _ =>
     TasksController.deleteTask ctx db (((ps.lookup "id").getD ""))⟩]

/-- Route dispatch: first registered route whose method and pattern match;
Hono's built-in 404 when none does. -/
def dispatchRoutes : List Route → Ctx → DB → Request → HandlerResult
  | [], _, db, _ => ⟨.ok ⟨404, .text "404 Not Found"⟩, db, []⟩
  | r :: rs, ctx, db, req =>
    if r.method == req.method then
      match matchPattern r.pattern req.path with
      | some ps => r.handler ctx db ps req.body
      | none => dispatchRoutes rs ctx db req
    else dispatchRoutes rs ctx db req

/-- `app.onError` from `index.ts`: 500 with `{ error: err.message }`, plus a
`stack` field exactly when `NODE_ENV === 'development'` (an `undefined` field
is dropped by JSON serialization). -/
def appOnError (mode : String) (e : JsError) : HttpResponse :=
  ⟨500, .json (.obj ([("error", .str e.message)] ++
    (if mode = "development" then [("stack", .str e.stack)] else [])))⟩

/-- A full request against the mounted tasks router: dispatch, with any
thrown exception converted by the top-level error handler. -/
def handleTasksRequest (ctx : Ctx) (db : DB) (req : Request) :
    HttpResponse × DB × List StoreOp :=
  match dispatchRoutes tasksRouter ctx db req with
  | ⟨.ok resp, db', ops⟩ => (resp, db', ops)
  | ⟨.thrown e, db', ops⟩ => (appOnError ctx.mode e, db', ops)

/-- The `error` field of a JSON response body, when it is a string. -/
def respField (r : HttpResponse) (k : String) : Option Json :=
  match r.body with
  | .json j => j.getField k
  | _ => none

/-- Well-formedness of a store state: every stored id was produced by the id
generator at an index below the generator's counter (so the next generated id
is fresh). -/
def dbWF (db : DB) : Bool :=
  db.tasks.all (fun t => (List.range db.nextId).any (fun k => t.id == idOf k))

/-- JSON body a client would send for a given create DTO. -/
def createDtoJson (dto : CreateTaskDTO) : Json :=
  .obj ([("title", .str dto.title)] ++
    (match dto.completed with | some b => [("completed", .bool b)] | none => []))

/-- JSON body a client would send for a given update DTO. -/
def updateDtoJson (dto : UpdateTaskDTO) : Json :=
  .obj ((match dto.title with | some s => [("title", .str s)] | none => []) ++
    (match dto.completed with | some b => [("completed", .bool b)] | none => []))

/-! ## Helper lemmas -/

/-- Dispatching a PATCH on a one-segment path reaches the update controller
with the segment bound as the id. -/
theorem handle_patch_eq (ctx : Ctx) (db : DB) (seg : String) (body : Option Json) :
    handleTasksRequest ctx db ⟨.patch, [seg], body⟩ =
      (match TasksController.updateTask ctx db seg body with
       | ⟨.ok resp, db', ops⟩ => (resp, db', ops)
       | ⟨.thrown e, db', ops⟩ => (appOnError ctx.mode e, db', ops)) := rfl

/-- Dispatching a POST on the root path reaches the create controller. -/
theorem handle_post_eq (ctx : Ctx) (db : DB) (body : Option Json) :
    handleTasksRequest ctx db ⟨.post, [], body⟩ =
      (match TasksController.createTask ctx db body with
       | ⟨.ok resp, db', ops⟩ => (resp, db', ops)
       | ⟨.thrown e, db', ops⟩ => (appOnError ctx.mode e, db', ops)) := rfl

/-- Dispatching a GET on a one-segment path reaches the get-by-id
controller. -/
theorem handle_get_id_eq (ctx : Ctx) (db : DB) (seg : String) (body : Option Json) :
    handleTasksRequest ctx db ⟨.get, [seg], body⟩ =
      (match TasksController.getTask ctx db seg with
       | ⟨.ok resp, db', ops⟩ => (resp, db', ops)
       | ⟨.thrown e, db', ops⟩ => (appOnError ctx.mode e, db', ops)) := rfl

/-- Dispatching a DELETE on a one-segment path reaches the delete
controller. -/
theorem handle_delete_eq (ctx : Ctx) (db : DB) (seg : String) (body : Option Json) :
    handleTasksRequest ctx db ⟨.delete, [seg], body⟩ =
      (match TasksController.deleteTask ctx db seg with
       | ⟨.ok resp, db', ops⟩ => (resp, db', ops)
       | ⟨.thrown e, db', ops⟩ => (appOnError ctx.mode e, db', ops)) := rfl

/-- The id generator is injective: distinct indices give distinct ids. -/
theorem idOf_inj {a b : Nat} (h : idOf a = idOf b) : a = b := by
  unfold idOf at h
  have h2 := congrArg (fun s : String => s.data.length) h
  simpa using h2

/-- In a well-formed store no stored row carries the id the generator will
produce next. -/
theorem wf_fresh (db : DB) (hwf : dbWF db = true) :
    ∀ u ∈ db.tasks, u.id ≠ idOf db.nextId := by
  intro u hu
  unfold dbWF at hwf
  rw [List.all_eq_true] at hwf
  have h1 := hwf u hu
  rw [List.any_eq_true] at h1
  obtain ⟨k, hk, he⟩ := h1
  have hk' : k < db.nextId := List.mem_range.mp hk
  have he' : u.id = idOf k := by simpa using he
  rw [he']
  intro hcontra
  exact absurd (idOf_inj hcontra) (Nat.ne_of_lt hk')

/-- Looking up a freshly appended row by its id finds that row. -/
theorem find?_append_fresh (l : List Task) (t : Task) (h : ∀ u ∈ l, u.id ≠ t.id) :
    (l ++ [t]).find? (fun u => u.id == t.id) = some t := by
  induction l with
  | nil => simp [List.find?]
  | cons u us ih =>
    have hu : (u.id == t.id) = false := by simpa using h u (by simp)
    simp only [List.cons_append, List.find?_cons, hu]
    exact ih (fun v hv => h v (by simp [hv]))

/-- A create body built from a DTO with a non-empty title validates back to
that DTO. -/
theorem safeParse_createDtoJson (dto : CreateTaskDTO) (ht : dto.title ≠ "") :
    CreateTaskSchema.safeParse (createDtoJson dto) = .ok dto := by
  cases dto with
  | mk title completed =>
    cases completed <;>
      simp [createDtoJson, CreateTaskSchema.safeParse, checkCreateTitle, checkCompleted,
        Json.getField, lookupField, ht]

/-! ## Claims -/

/-- C1: after creating exactly 2 tasks of which 1 is completed, `GET /stats`
does NOT return 200 with `{total: 2, completed: 1, pending: 1}` — the router
registers no `/stats` route, so the parameterized `GET /:id` route matches
with `id = "stats"`, `findById` returns `null`, and the response is
404 `{error: "Task not found"}`.  This contradicts the claim and the
repository's own test `should get task statistics`. -/
theorem c1_stats_answered_404_not_200 :
    let ctx : Ctx := ⟨"development", none⟩
    let r1 := handleTasksRequest ctx emptyDB
      ⟨.post, [], some (.obj [("title", .str "Task 1"), ("completed", .bool false)])⟩
    let r2 := handleTasksRequest ctx r1.2.1
      ⟨.post, [], some (.obj [("title", .str "Task 2"), ("completed", .bool true)])⟩
    let r3 := handleTasksRequest ctx r2.2.1 ⟨.get, ["stats"], none⟩
    r1.1.status = 201 ∧ r2.1.status = 201 ∧
    r3.1 = ⟨404, .json (.obj [("error", .str "Task not found")])⟩ :=
  ⟨rfl, rfl, rfl⟩

/-- C2 (counterexample): an infrastructure fault raised by the store during a
PATCH on an existing task is NOT answered with 500 — the repository's blanket
`catch` turns it into `null` and the controller answers 404, the not-found
response the claim rules out. -/
theorem c2_counterexample :
    (handleTasksRequest ⟨"production", some ⟨"connection lost", "stacktrace"⟩⟩
      ⟨[⟨idOf 0, "A", false, 0⟩], 1, 1⟩
      ⟨.patch, [idOf 0], some (.obj [("completed", .bool true)])⟩).1.status = 404 := rfl

/-- C2 (amended): an unexpected store error during list, get-by-id, or create
requests propagates to the top-level handler and is answered 500; but during
update and delete the repository's catch-all converts any store error —
infrastructure errors included — into the `null`/`false` sentinel, so those
requests are answered 404, never 500. -/
theorem c2_store_fault_routing (mode : String) (e : JsError) (db : DB) :
    ((handleTasksRequest ⟨mode, some e⟩ db ⟨.get, [], none⟩).1.status = 500) ∧
    (∀ seg, (handleTasksRequest ⟨mode, some e⟩ db ⟨.get, [seg], none⟩).1.status = 500) ∧
    (∀ j dto, CreateTaskSchema.safeParse j = .ok dto →
      (handleTasksRequest ⟨mode, some e⟩ db ⟨.post, [], some j⟩).1.status = 500) ∧
    (∀ seg j dto, UpdateTaskSchema.safeParse j = .ok dto →
      (handleTasksRequest ⟨mode, some e⟩ db ⟨.patch, [seg], some j⟩).1.status = 404) ∧
    (∀ seg, (handleTasksRequest ⟨mode, some e⟩ db ⟨.delete, [seg], none⟩).1.status = 404) := by
  refine ⟨rfl, fun seg => rfl, fun j dto hp => ?_, fun seg j dto hp => ?_, fun seg => rfl⟩
  · rw [handle_post_eq]
    simp [TasksController.createTask, hp, TasksService.createTask, TasksRepository.create,
      PrismaTask.createRow, appOnError]
  · rw [handle_patch_eq]
    simp [TasksController.updateTask, hp, TasksService.updateTask, TasksRepository.update,
      PrismaTask.updateRow]

/-- C2 (witness): concrete instances of the amended claim — a faulted create
is answered 500, a faulted update on an existing row is answered 404. -/
theorem c2_store_fault_routing_witness :
    ((handleTasksRequest ⟨"production", some ⟨"down", "st"⟩⟩ emptyDB
        ⟨.post, [], some (.obj [("title", .str "A")])⟩).1.status = 500) ∧
    ((handleTasksRequest ⟨"production", some ⟨"down", "st"⟩⟩ emptyDB
        ⟨.patch, ["x"], some (.obj [("completed", .bool true)])⟩).1.status = 404) :=
  ⟨(c2_store_fault_routing "production" ⟨"down", "st"⟩ emptyDB).2.2.1
      (.obj [("title", .str "A")]) ⟨"A", none⟩ rfl,
   (c2_store_fault_routing "production" ⟨"down", "st"⟩ emptyDB).2.2.2.1
      "x" (.obj [("completed", .bool true)]) ⟨none, some true⟩ rfl⟩

/-- C3 (counterexample): with mode `"test"` (which is not production) and a
failure whose message is `"boom"`, the handler's 500 body carries the
failure's own message — not a generic one — and omits the stack trace even
though the mode is not production. -/
theorem c3_counterexample :
    let r := handleTasksRequest ⟨"test", some ⟨"boom", "trace"⟩⟩ emptyDB ⟨.get, [], none⟩
    r.1.status = 500 ∧ respField r.1 "error" = some (.str "boom") ∧
    respField r.1 "stack" = none ∧ "test" ≠ "production" :=
  ⟨rfl, rfl, rfl, by decide⟩

/-- C3 (amended): every uncaught failure is answered by the catch-all handler
with status 500, a body whose `error` field is the failure's own message, and
a `stack` field exactly when the configured mode is `"development"`. -/
theorem c3_error_handler_shape (mode : String) (fault : Option JsError) (db : DB)
    (req : Request) (e : JsError) (db' : DB) (ops : List StoreOp)
    (h : dispatchRoutes tasksRouter ⟨mode, fault⟩ db req = ⟨.thrown e, db', ops⟩) :
    (handleTasksRequest ⟨mode, fault⟩ db req).1.status = 500 ∧
    respField (handleTasksRequest ⟨mode, fault⟩ db req).1 "error" = some (.str e.message) ∧
    respField (handleTasksRequest ⟨mode, fault⟩ db req).1 "stack" =
      (if mode = "development" then some (.str e.stack) else none) := by
  unfold handleTasksRequest
  rw [h]
  by_cases hm : mode = "development" <;>
    simp [appOnError, respField, Json.getField, lookupField, hm]

/-- C3 (witness): a store fault on `GET /` at mode `"staging"` reaches the
handler; the response is 500, carries the message, and has no stack. -/
theorem c3_error_handler_shape_witness :
    (handleTasksRequest ⟨"staging", some ⟨"oops", "tr"⟩⟩ emptyDB ⟨.get, [], none⟩).1.status = 500 ∧
    respField (handleTasksRequest ⟨"staging", some ⟨"oops", "tr"⟩⟩ emptyDB ⟨.get, [], none⟩).1
      "error" = some (.str "oops") ∧
    respField (handleTasksRequest ⟨"staging", some ⟨"oops", "tr"⟩⟩ emptyDB ⟨.get, [], none⟩).1
      "stack" = (if "staging" = "development" then some (.str "tr") else none) :=
  c3_error_handler_shape "staging" (some ⟨"oops", "tr"⟩) emptyDB ⟨.get, [], none⟩
    ⟨"oops", "tr"⟩ emptyDB [.findManyRows none] rfl

/-- C4 (counterexample): a PATCH on a nonexistent id whose body fails
validation (here `title` is a number) is answered 400, not 404. -/
theorem c4_counterexample :
    let r := handleTasksRequest ⟨"production", none⟩ emptyDB
      ⟨.patch, ["nope"], some (.obj [("title", .num 5)])⟩
    r.1.status = 400 ∧ r.1.status ≠ 404 :=
  ⟨rfl, by decide⟩

/-- C4 (amended): a PATCH on an id not identifying an existing task is
answered 404 whenever the body passes update validation; for every body —
valid, invalid, or unparseable — the status is never 200. -/
theorem c4_patch_missing_id (mode : String) (db : DB) (seg : String)
    (h : db.tasks.find? (fun t => t.id == seg) = none) :
    (∀ j dto, UpdateTaskSchema.safeParse j = .ok dto →
      (handleTasksRequest ⟨mode, none⟩ db ⟨.patch, [seg], some j⟩).1.status = 404) ∧
    (∀ body, (handleTasksRequest ⟨mode, none⟩ db ⟨.patch, [seg], body⟩).1.status ≠ 200) := by
  have key : ∀ j dto, UpdateTaskSchema.safeParse j = .ok dto →
      (handleTasksRequest ⟨mode, none⟩ db ⟨.patch, [seg], some j⟩).1.status = 404 := by
    intro j dto hp
    rw [handle_patch_eq]
    simp [TasksController.updateTask, hp, TasksService.updateTask, TasksRepository.update,
      PrismaTask.updateRow, h]
  refine ⟨key, fun body => ?_⟩
  match body with
  | none => rw [handle_patch_eq]; simp [TasksController.updateTask, appOnError]
  | some j =>
    match hp : UpdateTaskSchema.safeParse j with
    | .error issues =>
      rw [handle_patch_eq]
      simp [TasksController.updateTask, hp]
    | .ok dto =>
      rw [key j dto hp]
      decide

/-- C4 (witness): on the empty store, a valid-body PATCH of id `"x"` is
answered 404, and an unparseable body is not answered 200. -/
theorem c4_patch_missing_id_witness :
    ((handleTasksRequest ⟨"development", none⟩ emptyDB
        ⟨.patch, ["x"], some (.obj [("completed", .bool true)])⟩).1.status = 404) ∧
    ((handleTasksRequest ⟨"development", none⟩ emptyDB
        ⟨.patch, ["x"], none⟩).1.status ≠ 200) :=
  ⟨(c4_patch_missing_id "development" emptyDB "x" rfl).1
      (.obj [("completed", .bool true)]) ⟨none, some true⟩ rfl,
   (c4_patch_missing_id "development" emptyDB "x" rfl).2 none⟩

/-- C5: a POST whose body has an empty-string `title` is answered 400 with a
non-empty structured issue list; the store is untouched (no store operation in
the trace, state unchanged), so neither the service nor the repository create
function ran. -/
theorem c5_create_empty_title (mode : String) (fault : Option JsError) (db : DB) (j : Json)
    (h : j.getField "title" = some (.str "")) :
    (handleTasksRequest ⟨mode, fault⟩ db ⟨.post, [], some j⟩).1.status = 400 ∧
    (∃ issues, issues ≠ [] ∧
      (handleTasksRequest ⟨mode, fault⟩ db ⟨.post, [], some j⟩).1.body =
        .json (.obj [("error", issuesJson issues)])) ∧
    (handleTasksRequest ⟨mode, fault⟩ db ⟨.post, [], some j⟩).2.1 = db ∧
    (handleTasksRequest ⟨mode, fault⟩ db ⟨.post, [], some j⟩).2.2 = [] := by
  have hobj : ∃ fs, j = .obj fs := by
    cases j <;> simp_all [Json.getField]
  obtain ⟨fs, rfl⟩ := hobj
  have htitle : checkCreateTitle (.obj fs) = .error ⟨["title"], "Too small"⟩ := by
    unfold checkCreateTitle
    rw [h]
    simp
  rw [handle_post_eq]
  match hc : checkCompleted (.obj fs) with
  | .ok c =>
    have hsp : CreateTaskSchema.safeParse (.obj fs) = .error [⟨["title"], "Too small"⟩] := by
      simp [CreateTaskSchema.safeParse, htitle, hc]
    refine ⟨?_, ⟨[⟨["title"], "Too small"⟩], by simp, ?_⟩, ?_, ?_⟩ <;>
      simp [TasksController.createTask, hsp]
  | .error i =>
    have hsp : CreateTaskSchema.safeParse (.obj fs) = .error [⟨["title"], "Too small"⟩, i] := by
      simp [CreateTaskSchema.safeParse, htitle, hc]
    refine ⟨?_, ⟨[⟨["title"], "Too small"⟩, i], by simp, ?_⟩, ?_, ?_⟩ <;>
      simp [TasksController.createTask, hsp]

/-- C5 (witness): POSTing `{"title": ""}` to the empty store is answered 400
with issues, leaving the store untouched. -/
theorem c5_create_empty_title_witness :
    (handleTasksRequest ⟨"development", none⟩ emptyDB
        ⟨.post, [], some (.obj [("title", .str "")])⟩).1.status = 400 ∧
    (∃ issues, issues ≠ [] ∧
      (handleTasksRequest ⟨"development", none⟩ emptyDB
          ⟨.post, [], some (.obj [("title", .str "")])⟩).1.body =
        .json (.obj [("error", issuesJson issues)])) ∧
    (handleTasksRequest ⟨"development", none⟩ emptyDB
        ⟨.post, [], some (.obj [("title", .str "")])⟩).2.1 = emptyDB ∧
    (handleTasksRequest ⟨"development", none⟩ emptyDB
        ⟨.post, [], some (.obj [("title", .str "")])⟩).2.2 = [] :=
  c5_create_empty_title "development" none emptyDB (.obj [("title", .str "")]) rfl

/-- C6: for a valid create input (non-empty title, optional completed), POST
answers 201 with the created task, and GET on the returned id answers 200 with
a task whose title matches the input and whose completed flag equals the
input, or `false` when it was omitted. -/
theorem c6_create_then_get (mode : String) (db : DB) (dto : CreateTaskDTO)
    (hwf : dbWF db = true) (ht : dto.title ≠ "") :
    ∃ t : Task,
      handleTasksRequest ⟨mode, none⟩ db ⟨.post, [], some (createDtoJson dto)⟩ =
        (⟨201, .json (taskJson t)⟩, ⟨db.tasks ++ [t], db.nextId + 1, db.clock + 1⟩, [.createRow]) ∧
      (handleTasksRequest ⟨mode, none⟩
          ⟨db.tasks ++ [t], db.nextId + 1, db.clock + 1⟩ ⟨.get, [t.id], none⟩).1 =
        ⟨200, .json (taskJson t)⟩ ∧
      t.title = dto.title ∧ t.completed = dto.completed.getD false := by
  refine ⟨⟨idOf db.nextId, dto.title, dto.completed.getD false, db.clock⟩, ?_, ?_, rfl, rfl⟩
  · rw [handle_post_eq]
    simp [TasksController.createTask, safeParse_createDtoJson dto ht, TasksService.createTask,
      TasksRepository.create, PrismaTask.createRow]
  · rw [handle_get_id_eq]
    have hfind := find?_append_fresh db.tasks
      (⟨idOf db.nextId, dto.title, dto.completed.getD false, db.clock⟩ : Task)
      (wf_fresh db hwf)
    simp [TasksController.getTask, TasksService.getTaskById, TasksRepository.findById,
      PrismaTask.findUnique, hfind]

/-- C6 (witness): POSTing `{"title": "Test Task"}` to the empty store then
GETting the returned id yields the task with title `"Test Task"` and
`completed = false`. -/
theorem c6_create_then_get_witness :
    ∃ t : Task,
      handleTasksRequest ⟨"development", none⟩ emptyDB
          ⟨.post, [], some (createDtoJson ⟨"Test Task", none⟩)⟩ =
        (⟨201, .json (taskJson t)⟩, ⟨emptyDB.tasks ++ [t], emptyDB.nextId + 1, emptyDB.clock + 1⟩,
          [.createRow]) ∧
      (handleTasksRequest ⟨"development", none⟩
          ⟨emptyDB.tasks ++ [t], emptyDB.nextId + 1, emptyDB.clock + 1⟩ ⟨.get, [t.id], none⟩).1 =
        ⟨200, .json (taskJson t)⟩ ∧
      t.title = "Test Task" ∧ t.completed = (none : Option Bool).getD false :=
  c6_create_then_get "development" emptyDB ⟨"Test Task", none⟩ (by decide) (by decide)

/-- C7: when no stored task has the requested id, the store raises its
not-found error on update and delete, and the repository catches it:
`update` returns `null` (`.ok none`, not a thrown error) and `deleteById`
returns `false`, both leaving the store unchanged. -/
theorem c7_notfound_translated (mode : String) (db : DB) (id : String) (data : UpdateTaskDTO)
    (h : db.tasks.find? (fun t => t.id == id) = none) :
    (PrismaTask.updateRow ⟨mode, none⟩ db id data).1 = .error recordNotFound ∧
    TasksRepository.update ⟨mode, none⟩ db id data = (.ok none, db, [.updateRow id]) ∧
    (PrismaTask.deleteRow ⟨mode, none⟩ db id).1 = .error recordNotFound ∧
    TasksRepository.deleteById ⟨mode, none⟩ db id = (.ok false, db, [.deleteRow id]) := by
  refine ⟨?_, ?_, ?_, ?_⟩ <;>
    simp [PrismaTask.updateRow, PrismaTask.deleteRow, TasksRepository.update,
      TasksRepository.deleteById, h]

/-- C7 (witness): on the empty store, update of id `"missing"` returns `null`
and delete returns `false`. -/
theorem c7_notfound_translated_witness :
    (PrismaTask.updateRow ⟨"development", none⟩ emptyDB "missing" ⟨none, none⟩).1 =
      .error recordNotFound ∧
    TasksRepository.update ⟨"development", none⟩ emptyDB "missing" ⟨none, none⟩ =
      (.ok none, emptyDB, [.updateRow "missing"]) ∧
    (PrismaTask.deleteRow ⟨"development", none⟩ emptyDB "missing").1 = .error recordNotFound ∧
    TasksRepository.deleteById ⟨"development", none⟩ emptyDB "missing" =
      (.ok false, emptyDB, [.deleteRow "missing"]) :=
  c7_notfound_translated "development" emptyDB "missing" ⟨none, none⟩ rfl

/-- C8: `findAll` returns all stored tasks (a permutation of the table)
ordered by `createdAt` descending, and `findByStatus` returns exactly the
tasks whose completed flag equals the argument, in the same descending
order. -/
theorem c8_find_ordering (mode : String) (db : DB) (b : Bool) :
    (∃ l, TasksRepository.findAll ⟨mode, none⟩ db = (.ok l, db, [.findManyRows none]) ∧
      l.Perm db.tasks ∧ l.Pairwise createdDesc) ∧
    (∃ l, TasksRepository.findByStatus ⟨mode, none⟩ db b =
        (.ok l, db, [.findManyRows (some b)]) ∧
      l.Perm (db.tasks.filter (fun t => t.completed == b)) ∧ l.Pairwise createdDesc) := by
  refine ⟨⟨sortByCreatedAtDesc db.tasks, rfl, ?_, ?_⟩,
    ⟨sortByCreatedAtDesc (db.tasks.filter (fun t => t.completed == b)), rfl, ?_, ?_⟩⟩
  · exact List.perm_insertionSort createdDesc db.tasks
  · exact List.sorted_insertionSort createdDesc db.tasks
  · exact List.perm_insertionSort createdDesc _
  · exact List.sorted_insertionSort createdDesc _

/-- C9: updating an existing task preserves its `id` and `createdAt`; the
resulting task's `title` and `completed` are the payload's values where
given and the old values otherwise, and nothing else of the row changes. -/
theorem c9_update_frame (mode : String) (db : DB) (id : String) (dto : UpdateTaskDTO) (t : Task)
    (h : db.tasks.find? (fun u => u.id == id) = some t) :
    ∃ t', TasksService.updateTask ⟨mode, none⟩ db id dto =
        (.ok (some t'),
         ⟨db.tasks.map (fun u => if u.id == id then PrismaTask.applyUpdate dto u else u),
          db.nextId, db.clock⟩,
         [.updateRow id]) ∧
      t'.id = t.id ∧ t'.createdAt = t.createdAt ∧
      t'.title = dto.title.getD t.title ∧ t'.completed = dto.completed.getD t.completed := by
  refine ⟨PrismaTask.applyUpdate dto t, ?_, rfl, rfl, rfl, rfl⟩
  simp [TasksService.updateTask, TasksRepository.update, PrismaTask.updateRow, h]

/-- C9 (witness): completing the sole stored task keeps its id and creation
time and only flips the flag. -/
theorem c9_update_frame_witness :
    ∃ t', TasksService.updateTask ⟨"development", none⟩ ⟨[⟨idOf 0, "A", false, 0⟩], 1, 1⟩
        (idOf 0) ⟨none, some true⟩ =
        (.ok (some t'),
         ⟨[(⟨idOf 0, "A", false, 0⟩ : Task)].map
            (fun u => if u.id == idOf 0 then PrismaTask.applyUpdate ⟨none, some true⟩ u else u),
          1, 1⟩,
         [.updateRow (idOf 0)]) ∧
      t'.id = (⟨idOf 0, "A", false, 0⟩ : Task).id ∧
      t'.createdAt = (⟨idOf 0, "A", false, 0⟩ : Task).createdAt ∧
      t'.title = (none : Option String).getD (⟨idOf 0, "A", false, 0⟩ : Task).title ∧
      t'.completed = (some true).getD (⟨idOf 0, "A", false, 0⟩ : Task).completed :=
  c9_update_frame "development" ⟨[⟨idOf 0, "A", false, 0⟩], 1, 1⟩ (idOf 0) ⟨none, some true⟩
    ⟨idOf 0, "A", false, 0⟩ (by simp [List.find?])

/-- C10: a POST or PATCH whose body is not parseable as JSON makes
`c.req.json()` throw before validation; the top-level handler answers 500
(never a 400 validation response), the store is untouched and its state
unchanged. -/
theorem c10_unparseable_body (mode : String) (fault : Option JsError) (db : DB) (seg : String) :
    ((handleTasksRequest ⟨mode, fault⟩ db ⟨.post, [], none⟩).1.status = 500) ∧
    ((handleTasksRequest ⟨mode, fault⟩ db ⟨.post, [], none⟩).2.1 = db) ∧
    ((handleTasksRequest ⟨mode, fault⟩ db ⟨.post, [], none⟩).2.2 = []) ∧
    ((handleTasksRequest ⟨mode, fault⟩ db ⟨.post, [], none⟩).1.status ≠ 400) ∧
    ((handleTasksRequest ⟨mode, fault⟩ db ⟨.patch, [seg], none⟩).1.status = 500) ∧
    ((handleTasksRequest ⟨mode, fault⟩ db ⟨.patch, [seg], none⟩).2.1 = db) ∧
    ((handleTasksRequest ⟨mode, fault⟩ db ⟨.patch, [seg], none⟩).2.2 = []) ∧
    ((handleTasksRequest ⟨mode, fault⟩ db ⟨.patch, [seg], none⟩).1.status ≠ 400) :=
  ⟨rfl, rfl, rfl, (by decide : (500 : Nat) ≠ 400), rfl, rfl, rfl,
   (by decide : (500 : Nat) ≠ 400)⟩

end TasksApp
